import Mathlib

/- Verification of the WebSocket state-synchronization logic of the
   qwergpt-ui client (src/App.tsx and src/PipelineMonitor.tsx).

   The embedding models the runtime JavaScript behavior of the two files:
   - React state variables become fields of an explicit state record.
   - Socket and timer callbacks become events consumed by a step function.
   - A JSON field of an inbound frame is modeled with two Option layers:
     the outer layer is key presence (none = key absent / undefined), the
     inner layer distinguishes null (none) from a proper value (some v).
     JS truthiness of such a field: undefined, null and the empty string
     are falsy; every array or object, even an empty one, is truthy.
   - JSON.parse is modeled by handing the parse outcome (an Except value)
     to the message handler, since parsing is the handler's first action;
     an Except.error outcome stands for the exception JSON.parse throws.
   - Timer handles are modeled as Option fields recording the armed delay
     in milliseconds (and, for the connect watchdog, the socket generation
     captured by the callback closure); none means no timer pending.
   - Sockets are identified by generation numbers; the browser readyState
     of each created socket is tracked in an association list, and the set
     of generations whose event handlers are currently attached is tracked
     explicitly (assigning null to the handlers in cleanupWebSocket
     removes the generation from that set).
-/

/-- A pipeline component, as in the PipelineComponent interface of
    src/PipelineMonitor.tsx: name, optional execution_time, optional order. -/
structure PipelineComponent where
  name : String
  execution_time : Option Int
  order : Option Int
deriving DecidableEq

/-- Browser WebSocket readyState values (CONNECTING, OPEN, CLOSING, CLOSED). -/
inductive RState where
  | connecting
  | opened
  | closing
  | closed
deriving DecidableEq

/-- The state of one mounted PipelineMonitor component together with the
    sockets it has created.  pStatus and pComponents are the props
    (initialStatus, initialComponents); status, components, wsConnected and
    pipelineData are the four useState fields; wsRef, reconnectTimeout,
    connectionTimeout and mounted are the four useRef fields
    (wsRef.current, reconnectTimeoutRef.current, connectionTimeoutRef.current,
    isComponentMounted.current).  status is a String because at runtime any
    string from the wire can be stored by setStatus. -/
structure MState where
  pStatus : String
  pComponents : List PipelineComponent
  status : String
  components : List PipelineComponent
  wsConnected : Bool
  pipelineData : List (String × String)
  mounted : Bool
  wsRef : Option Nat
  sockets : List (Nat × RState)
  attached : List Nat
  reconnectTimeout : Option Nat
  connectionTimeout : Option (Nat × Nat)
  nextGen : Nat
deriving DecidableEq

/-- readyState of socket generation g (closed if unknown). -/
def rsOf (st : MState) (g : Nat) : RState :=
  (st.sockets.lookup g).getD RState.closed

/-- Overwrite the readyState of socket generation g. -/
def setRs (st : MState) (g : Nat) (r : RState) : MState :=
  { st with sockets := st.sockets.map (fun p => if p.1 = g then (g, r) else p) }

/-- Whether the event handlers of socket generation g are attached. -/
def isAttached (st : MState) (g : Nat) : Bool :=
  st.attached.contains g

/-- An inbound frame for PipelineMonitor's ws.onmessage, after JSON.parse:
    the three keys the handler reads.  Outer Option: key presence;
    inner Option: null versus value. -/
structure InMsg where
  status : Option (Option String)
  components : Option (Option (List PipelineComponent))
  pipeline_data : Option (Option (List (String × String)))
deriving DecidableEq

/-- JS truthiness of a string-valued frame field: absent and null and the
    empty string are falsy, every other string is truthy.  This is the
    guard semantics of the source lines of the form
    if (data.status) setStatus(data.status). -/
def truthyStr : Option (Option String) → Bool
  | some (some v) => v != ""
  | _ => false

/-- JS truthiness of an array- or object-valued frame field: absent and
    null are falsy, every array or object (even empty) is truthy. -/
def truthyObj {α : Type} : Option (Option α) → Bool
  | some (some _) => true
  | _ => false

/-- The merge done by ws.onmessage in src/PipelineMonitor.tsx (lines
    111-113):
      if (data.status) setStatus(data.status);
      if (data.components) setComponents(data.components);
      if (data.pipeline_data) setPipelineData(data.pipeline_data);
    Each match arm encodes the JS truthiness of the corresponding field. -/
def applyMsg (st : MState) (m : InMsg) : MState :=
  let st1 := match m.status with
    | some (some v) => if v ≠ "" then { st with status := v } else st
    | _ => st
  let st2 := match m.components with
    | some (some cs) => { st1 with components := cs }
    | _ => st1
  match m.pipeline_data with
    | some (some pd) => { st2 with pipelineData := pd }
    | _ => st2

/-- resetState of src/PipelineMonitor.tsx (lines 45-50). -/
def resetState (st : MState) : MState :=
  { st with status := st.pStatus, components := st.pComponents,
            wsConnected := false, pipelineData := [] }

/-- cleanupWebSocket of src/PipelineMonitor.tsx (lines 52-74): clear both
    timers, then, if a socket is referenced, null out its four event
    handlers, close it when its readyState is OPEN or CONNECTING, and drop
    the reference. -/
def cleanupWebSocket (st : MState) : MState :=
  let st1 := { st with reconnectTimeout := none, connectionTimeout := none }
  match st1.wsRef with
  | none => st1
  | some g =>
      let st2 := { st1 with attached := st1.attached.filter (fun h => h ≠ g) }
      let st3 := if rsOf st2 g = RState.opened ∨ rsOf st2 g = RState.connecting
                 then setRs st2 g RState.closing else st2
      { st3 with wsRef := none }

/-- connectWebSocket of src/PipelineMonitor.tsx (lines 76-94, handler
    assignment included): clean up the previous connection, return if the
    component is unmounted, otherwise create a fresh socket (readyState
    CONNECTING, handlers attached), store it in wsRef and arm the 5000 ms
    connect watchdog whose closure captures this socket. -/
def connectWebSocket (st : MState) : MState :=
  let st1 := cleanupWebSocket st
  if st1.mounted then
    let g := st1.nextGen
    { st1 with
      sockets := (g, RState.connecting) :: st1.sockets,
      attached := g :: st1.attached,
      wsRef := some g,
      connectionTimeout := some (g, 5000),
      nextGen := g + 1 }
  else st1

/-- Body of the connect watchdog (lines 86-94): when it fires, if the
    captured socket's readyState is not OPEN, tear everything down and, if
    still mounted, surface status error.  Firing consumes the timer. -/
def connTimeoutBody (st : MState) : MState :=
  match st.connectionTimeout with
  | none => st
  | some (g, _) =>
      let st1 := { st with connectionTimeout := none }
      if rsOf st1 g ≠ RState.opened then
        let st2 := cleanupWebSocket st1
        if st2.mounted then { st2 with status := "error" } else st2
      else st1

/-- ws.onopen (lines 96-104): when mounted, record the connection, cancel
    the watchdog and send the identity handshake (no local state). -/
def onOpen (st : MState) : MState :=
  if st.mounted then
    { st with wsConnected := true, connectionTimeout := none }
  else st

/-- ws.onmessage (lines 106-117): return early when unmounted; otherwise
    parse and merge, catching a parse failure (which is only logged). -/
def onMessage (st : MState) (r : Except Unit InMsg) : MState :=
  if st.mounted then
    match r with
    | Except.ok m => applyMsg st m
    | Except.error _ => st
  else st

/-- ws.onerror (lines 119-125): when mounted, surface status error. -/
def onError (st : MState) : MState :=
  if st.mounted then { st with status := "error" } else st

/-- ws.onclose (lines 127-137): return early when unmounted; otherwise
    clear the connected flag and, when the closed socket is still the
    referenced one, arm the 3000 ms reconnect timer. -/
def onClose (st : MState) (g : Nat) : MState :=
  if st.mounted then
    let st1 := { st with wsConnected := false }
    if st1.mounted ∧ st1.wsRef = some g then
      { st1 with reconnectTimeout := some 3000 }
    else st1
  else st

/-- The events of the single-threaded event loop: browser socket callbacks
    (dispatched only while the socket's handlers are attached), the two
    timer firings, and the useEffect run / cleanup pair keyed on
    pipeline_id (lines 140-149). -/
inductive Ev where
  | sockOpen (g : Nat)
  | sockMsg (g : Nat) (r : Except Unit InMsg)
  | sockErr (g : Nat)
  | sockClose (g : Nat)
  | connTimeoutFire
  | reconnectFire
  | effectRun
  | effectCleanup

/-- One step of the event loop.  A socket event first updates the
    browser-side readyState, then runs the handler only if that socket's
    handlers are attached.  A timer fires only if it is armed. -/
def step (st : MState) : Ev → MState
  | Ev.sockOpen g =>
      let st1 := setRs st g RState.opened
      if isAttached st1 g then onOpen st1 else st1
  | Ev.sockMsg g r =>
      if isAttached st g then onMessage st r else st
  | Ev.sockErr g =>
      if isAttached st g then onError st else st
  | Ev.sockClose g =>
      let st1 := setRs st g RState.closed
      if isAttached st1 g then onClose st1 g else st1
  | Ev.connTimeoutFire => connTimeoutBody st
  | Ev.reconnectFire =>
      match st.reconnectTimeout with
      | none => st
      | some _ => connectWebSocket { st with reconnectTimeout := none }
  | Ev.effectRun => connectWebSocket (resetState { st with mounted := true })
  | Ev.effectCleanup => cleanupWebSocket { st with mounted := false }

/-- Character-level test that p is a leading run of s; kernel-computable
    model of the JS String.prototype.startsWith call in getComponentData. -/
def beginsWith : List Char → List Char → Bool
  | _, [] => true
  | [], _ :: _ => false
  | c :: cs, d :: ds => c == d && beginsWith cs ds

/-- String wrapper for beginsWith. -/
def strBeginsWith (s p : String) : Bool :=
  beginsWith s.data p.data

/-- Kernel-computable model of JS String.prototype.split with separator
    a single dot: splitDotAux cs acc accumulates the current segment in
    reverse in acc. -/
def splitDotAux : List Char → List Char → List (List Char)
  | [], acc => [acc.reverse]
  | c :: cs, acc =>
      if c == '.' then acc.reverse :: splitDotAux cs []
      else splitDotAux cs (c :: acc)

/-- The JS expression key.split('.')[1]: the second dot-separated segment
    of the key (empty when there is no second segment, which cannot occur
    for a key that passed the dot-suffixed filter). -/
def secondSegment (s : String) : String :=
  String.mk ((splitDotAux s.data []).getD 1 [])

/-- getComponentData of src/PipelineMonitor.tsx (lines 151-158):
    Object.entries of the data map, filtered by key.startsWith(name + "."),
    each entry mapped to the pair (key.split('.')[1], value). -/
def getComponentData (pipelineData : List (String × String)) (componentName : String) :
    List (String × String) :=
  (pipelineData.filter (fun kv => strBeginsWith kv.1 (componentName ++ "."))).map
    (fun kv => (secondSegment kv.1, kv.2))

/-- Modelled from the spec words of the Data Mapper contract, for
    comparison with getComponentData: the pairs whose composite key has
    the given name-dot run in front, with exactly that run stripped from
    the returned key. -/
def componentFieldsSpec (pipelineData : List (String × String)) (componentName : String) :
    List (String × String) :=
  (pipelineData.filter (fun kv => strBeginsWith kv.1 (componentName ++ "."))).map
    (fun kv => (String.mk (kv.1.data.drop (componentName ++ ".").data.length), kv.2))

/-- The value the sort comparator of line 161 uses: (c.order || 0).
    An absent order counts as 0 (and a 0 order is also 0). -/
def orderVal (c : PipelineComponent) : Int :=
  c.order.getD 0

/-- Stable insertion of a component into an order-sorted list: the
    inserted element goes before the first strictly greater element and
    before no equal one it preceded, matching the stable in-place
    Array.prototype.sort with comparator (a.order || 0) - (b.order || 0). -/
def insertByOrder (c : PipelineComponent) : List PipelineComponent → List PipelineComponent
  | [] => [c]
  | d :: ds => if orderVal c ≤ orderVal d then c :: d :: ds else d :: insertByOrder c ds

/-- Stable sort of the component list by order, as the comparator of
    line 161 produces. -/
def sortByOrder (l : List PipelineComponent) : List PipelineComponent :=
  l.foldr insertByOrder []

/-- The timelineItems computation of lines 160-161: components.sort(...)
    is Array.prototype.sort, which sorts the array IN PLACE and returns
    the same array, so the render both produces the sorted view (first
    component of the pair) and overwrites the stored component list with
    it (second component). -/
def timelineSortRead (st : MState) : List PipelineComponent × MState :=
  let sorted := sortByOrder st.components
  (sorted, { st with components := sorted })

/-- An inbound frame for App's handleMessage, after JSON.parse: the four
    keys that handler reads (note the camelCase pipelineId and
    pipelineData, unlike PipelineMonitor's pipeline_data). -/
structure AppMsg where
  status : Option (Option String)
  pipelineId : Option (Option String)
  components : Option (Option (List PipelineComponent))
  pipelineData : Option (Option (List (String × String)))
deriving DecidableEq

/-- The four useState fields of App (src/App.tsx) that handleMessage can
    write; pipelineData starts as null, hence the Option. -/
structure AppState where
  status : String
  pipelineId : String
  components : List PipelineComponent
  pipelineData : Option (List (String × String))
deriving DecidableEq

/-- The else-branch merge of handleMessage in src/App.tsx (lines 31-34):
      if (data.status) setStatus(data.status);
      if (data.pipelineId) setPipelineId(data.pipelineId);
      if (data.components) setComponents(data.components);
      if (data.pipelineData) setPipelineData(data.pipelineData); -/
def applyAppMsg (a : AppState) (m : AppMsg) : AppState :=
  let a1 := match m.status with
    | some (some v) => if v ≠ "" then { a with status := v } else a
    | _ => a
  let a2 := match m.pipelineId with
    | some (some v) => if v ≠ "" then { a1 with pipelineId := v } else a1
    | _ => a1
  let a3 := match m.components with
    | some (some cs) => { a2 with components := cs }
    | _ => a2
  match m.pipelineData with
    | some (some pd) => { a3 with pipelineData := some pd }
    | _ => a3

/-- handleMessage of src/App.tsx (lines 25-36).  The body starts with
    JSON.parse(event.data) outside any try block, so a malformed frame
    makes the handler exit exceptionally (Except.error) before reading any
    field; a frame whose status field is exactly the string connected is
    only logged; every other frame is merged. -/
def handleMessageApp (a : AppState) (parsed : Except Unit AppMsg) : Except Unit AppState :=
  match parsed with
  | Except.error e => Except.error e
  | Except.ok m =>
      if m.status = some (some "connected") then Except.ok a
      else Except.ok (applyAppMsg a m)

/-- The browser's event dispatch around handleMessage: an exception thrown
    by the handler is reported as an uncaught error and swallowed by the
    event loop, leaving the component state as it was. -/
def appDispatch (a : AppState) (parsed : Except Unit AppMsg) : AppState :=
  match handleMessageApp a parsed with
  | Except.ok b => b
  | Except.error _ => a

/-- A freshly constructed PipelineMonitor before its mount effect has run:
    props initialized / empty list, snapshot copied from the props by
    useState, no socket, no timers. -/
def m0 : MState :=
  { pStatus := "initialized", pComponents := [],
    status := "initialized", components := [], wsConnected := false,
    pipelineData := [], mounted := true, wsRef := none, sockets := [],
    attached := [], reconnectTimeout := none, connectionTimeout := none,
    nextGen := 0 }

/-- m0 after the mount effect: snapshot reset, socket generation 0 created
    and connecting, watchdog armed at 5000 ms. -/
def m1 : MState := step m0 Ev.effectRun

/-- m1 after the connect watchdog fires with the socket never opened. -/
def m2 : MState := step m1 Ev.connTimeoutFire

/-- m1 with the snapshot status set to running (as after receiving a
    running update), used to exercise message handling on a live socket. -/
def mRun : MState := { m1 with status := "running" }

/-- m1 after the unmount cleanup (shutdown requested). -/
def mShut : MState := step m1 Ev.effectCleanup

/-- A concrete App state as created by the useState initializers. -/
def app0 : AppState :=
  { status := "initialized", pipelineId := "0", components := [], pipelineData := none }

/-- cleanupWebSocket leaves the snapshot, the props, the mount flag and
    the generation counter alone, and always ends with both timers
    cleared and the socket reference dropped. -/
theorem cleanup_spec (st : MState) :
    (cleanupWebSocket st).status = st.status ∧
    (cleanupWebSocket st).components = st.components ∧
    (cleanupWebSocket st).pipelineData = st.pipelineData ∧
    (cleanupWebSocket st).wsConnected = st.wsConnected ∧
    (cleanupWebSocket st).mounted = st.mounted ∧
    (cleanupWebSocket st).nextGen = st.nextGen ∧
    (cleanupWebSocket st).pStatus = st.pStatus ∧
    (cleanupWebSocket st).pComponents = st.pComponents ∧
    (cleanupWebSocket st).reconnectTimeout = none ∧
    (cleanupWebSocket st).connectionTimeout = none ∧
    (cleanupWebSocket st).wsRef = none := by
  unfold cleanupWebSocket
  cases h : st.wsRef
  case none => simp [h]
  case some g =>
    simp only [h]
    split <;> simp [setRs]

/-- connectWebSocket leaves the snapshot and the props alone. -/
theorem connect_spec (st : MState) :
    (connectWebSocket st).status = st.status ∧
    (connectWebSocket st).components = st.components ∧
    (connectWebSocket st).pipelineData = st.pipelineData ∧
    (connectWebSocket st).wsConnected = st.wsConnected ∧
    (connectWebSocket st).mounted = st.mounted ∧
    (connectWebSocket st).pStatus = st.pStatus ∧
    (connectWebSocket st).pComponents = st.pComponents := by
  obtain ⟨h1, h2, h3, h4, h5, h6, h7, h8, h9, h10, h11⟩ := cleanup_spec st
  simp only [connectWebSocket]
  split <;> simp [h1, h2, h3, h4, h5, h7, h8]

/-- The onmessage merge does not change the status field of the snapshot
    when the status field of the frame is not truthy. -/
theorem applyMsg_status_frame (st : MState) (m : InMsg) (h : truthyStr m.status = false) :
    (applyMsg st m).status = st.status := by
  rcases m with ⟨ms, mc, mp⟩
  rcases ms with _ | (_ | v) <;> rcases mc with _ | (_ | cs) <;> rcases mp with _ | (_ | pd) <;>
    simp_all [applyMsg, truthyStr]

/-- The onmessage merge does not change the component list when the
    components field of the frame is not truthy. -/
theorem applyMsg_components_frame (st : MState) (m : InMsg) (h : truthyObj m.components = false) :
    (applyMsg st m).components = st.components := by
  rcases m with ⟨ms, mc, mp⟩
  rcases ms with _ | (_ | v) <;> rcases mc with _ | (_ | cs) <;> rcases mp with _ | (_ | pd) <;>
    simp_all [applyMsg, truthyObj] <;> split <;> simp

/-- The onmessage merge does not change the data map when the
    pipeline_data field of the frame is not truthy. -/
theorem applyMsg_pdata_frame (st : MState) (m : InMsg) (h : truthyObj m.pipeline_data = false) :
    (applyMsg st m).pipelineData = st.pipelineData := by
  rcases m with ⟨ms, mc, mp⟩
  rcases ms with _ | (_ | v) <;> rcases mc with _ | (_ | cs) <;> rcases mp with _ | (_ | pd) <;>
    simp_all [applyMsg, truthyObj] <;> split <;> simp

/-- The onmessage merge touches nothing besides the three snapshot fields:
    the connected flag, the mount flag, the socket reference, both timers
    and the generation counter are left exactly as they were. -/
theorem applyMsg_rest_frame (st : MState) (m : InMsg) :
    (applyMsg st m).wsConnected = st.wsConnected ∧
    (applyMsg st m).mounted = st.mounted ∧
    (applyMsg st m).wsRef = st.wsRef ∧
    (applyMsg st m).reconnectTimeout = st.reconnectTimeout ∧
    (applyMsg st m).connectionTimeout = st.connectionTimeout ∧
    (applyMsg st m).nextGen = st.nextGen ∧
    (applyMsg st m).sockets = st.sockets ∧
    (applyMsg st m).attached = st.attached := by
  rcases m with ⟨ms, mc, mp⟩
  rcases ms with _ | (_ | v) <;> rcases mc with _ | (_ | cs) <;> rcases mp with _ | (_ | pd) <;>
    simp [applyMsg] <;> split <;> simp

/-- The App merge does not change the status field when the status field
    of the frame is not truthy. -/
theorem applyAppMsg_status_frame (a : AppState) (m : AppMsg) (h : truthyStr m.status = false) :
    (applyAppMsg a m).status = a.status := by
  rcases m with ⟨ms, mi, mc, mp⟩
  rcases ms with _ | (_ | v) <;> rcases mi with _ | (_ | w) <;>
    rcases mc with _ | (_ | cs) <;> rcases mp with _ | (_ | pd) <;>
    simp_all [applyAppMsg, truthyStr, apply_ite AppState.status]

/-- The App merge does not change the pipeline identifier when the
    pipelineId field of the frame is not truthy. -/
theorem applyAppMsg_pipelineId_frame (a : AppState) (m : AppMsg)
    (h : truthyStr m.pipelineId = false) :
    (applyAppMsg a m).pipelineId = a.pipelineId := by
  rcases m with ⟨ms, mi, mc, mp⟩
  rcases ms with _ | (_ | v) <;> rcases mi with _ | (_ | w) <;>
    rcases mc with _ | (_ | cs) <;> rcases mp with _ | (_ | pd) <;>
    simp_all [applyAppMsg, truthyStr, apply_ite AppState.pipelineId]

/-- The App merge does not change the component list when the components
    field of the frame is not truthy. -/
theorem applyAppMsg_components_frame (a : AppState) (m : AppMsg)
    (h : truthyObj m.components = false) :
    (applyAppMsg a m).components = a.components := by
  rcases m with ⟨ms, mi, mc, mp⟩
  rcases ms with _ | (_ | v) <;> rcases mi with _ | (_ | w) <;>
    rcases mc with _ | (_ | cs) <;> rcases mp with _ | (_ | pd) <;>
    simp_all [applyAppMsg, truthyObj, apply_ite AppState.components]

/-- The App merge does not change the raw pipeline data when the
    pipelineData field of the frame is not truthy. -/
theorem applyAppMsg_pdata_frame (a : AppState) (m : AppMsg)
    (h : truthyObj m.pipelineData = false) :
    (applyAppMsg a m).pipelineData = a.pipelineData := by
  rcases m with ⟨ms, mi, mc, mp⟩
  rcases ms with _ | (_ | v) <;> rcases mi with _ | (_ | w) <;>
    rcases mc with _ | (_ | cs) <;> rcases mp with _ | (_ | pd) <;>
    simp_all [applyAppMsg, truthyObj, apply_ite AppState.pipelineData]

/-- The mount (or re-mount after an identifier change) effect leaves the
    snapshot at its reset values: connectWebSocket touches no snapshot
    field, so the state right after the effect body is the reset state. -/
theorem effectRun_snap (s : MState) :
    (step s Ev.effectRun).status = s.pStatus ∧
    (step s Ev.effectRun).components = s.pComponents ∧
    (step s Ev.effectRun).wsConnected = false ∧
    (step s Ev.effectRun).pipelineData = [] := by
  obtain ⟨k1, k2, k3, k4, -, -, -⟩ := connect_spec (resetState { s with mounted := true })
  simp only [step]
  refine ⟨?_, ?_, ?_, ?_⟩
  · rw [k1]; simp [resetState]
  · rw [k2]; simp [resetState]
  · rw [k4]; simp [resetState]
  · rw [k3]; simp [resetState]

/-- The unmount (or pre-identifier-change) effect cleanup leaves the props
    untouched. -/
theorem effectCleanup_props (st : MState) :
    (step st Ev.effectCleanup).pStatus = st.pStatus ∧
    (step st Ev.effectCleanup).pComponents = st.pComponents := by
  obtain ⟨-, -, -, -, -, -, c7, c8, -, -, -⟩ := cleanup_spec ({ st with mounted := false } : MState)
  simp only [step]
  exact ⟨by rw [c7], by rw [c8]⟩

/-- C3: changing the subscription identifier (pipeline_id) runs the old
    effect's cleanup and then the new effect, whose first action after
    re-marking the component mounted is resetState; the snapshot is
    therefore back at its initial values (initial status prop, initial
    components prop, empty data map, disconnected flag) at the end of the
    effect body, i.e. before any event of the new connection can be
    dispatched by the single-threaded event loop. -/
theorem idChange_resets_snapshot (st : MState) :
    (step (step st Ev.effectCleanup) Ev.effectRun).status = st.pStatus ∧
    (step (step st Ev.effectCleanup) Ev.effectRun).components = st.pComponents ∧
    (step (step st Ev.effectCleanup) Ev.effectRun).wsConnected = false ∧
    (step (step st Ev.effectCleanup) Ev.effectRun).pipelineData = [] := by
  obtain ⟨e1, e2, e3, e4⟩ := effectRun_snap (step st Ev.effectCleanup)
  obtain ⟨p1, p2⟩ := effectCleanup_props st
  exact ⟨by rw [e1, p1], by rw [e2, p2], e3, e4⟩

/-- C4: applying an inbound update event changes only the snapshot fields
    that are present in the event; a field absent from the frame leaves
    the corresponding snapshot field unchanged, in the PipelineMonitor
    merge as well as in the App merge, and the PipelineMonitor merge never
    touches the connected flag. -/
theorem partial_update_keeps_absent_fields (st : MState) (m : InMsg)
    (a : AppState) (am : AppMsg) :
    (m.status = none → (applyMsg st m).status = st.status) ∧
    (m.components = none → (applyMsg st m).components = st.components) ∧
    (m.pipeline_data = none → (applyMsg st m).pipelineData = st.pipelineData) ∧
    (applyMsg st m).wsConnected = st.wsConnected ∧
    (am.status = none → (applyAppMsg a am).status = a.status) ∧
    (am.pipelineId = none → (applyAppMsg a am).pipelineId = a.pipelineId) ∧
    (am.components = none → (applyAppMsg a am).components = a.components) ∧
    (am.pipelineData = none → (applyAppMsg a am).pipelineData = a.pipelineData) := by
  refine ⟨fun h => applyMsg_status_frame st m (by rw [h]; rfl),
          fun h => applyMsg_components_frame st m (by rw [h]; rfl),
          fun h => applyMsg_pdata_frame st m (by rw [h]; rfl),
          (applyMsg_rest_frame st m).1,
          fun h => applyAppMsg_status_frame a am (by rw [h]; rfl),
          fun h => applyAppMsg_pipelineId_frame a am (by rw [h]; rfl),
          fun h => applyAppMsg_components_frame a am (by rw [h]; rfl),
          fun h => applyAppMsg_pdata_frame a am (by rw [h]; rfl)⟩

/-- Witness for C4: a frame with every key absent changes nothing, checked
    at the initial PipelineMonitor state and the initial App state. -/
theorem partial_update_keeps_absent_fields_witness :
    (applyMsg m0 { status := none, components := none, pipeline_data := none }).status
      = m0.status ∧
    (applyMsg m0 { status := none, components := none, pipeline_data := none }).components
      = m0.components ∧
    (applyMsg m0 { status := none, components := none, pipeline_data := none }).pipelineData
      = m0.pipelineData ∧
    (applyAppMsg app0 { status := none, pipelineId := none, components := none,
                        pipelineData := none }).status = app0.status ∧
    (applyAppMsg app0 { status := none, pipelineId := none, components := none,
                        pipelineData := none }).pipelineId = app0.pipelineId ∧
    (applyAppMsg app0 { status := none, pipelineId := none, components := none,
                        pipelineData := none }).components = app0.components ∧
    (applyAppMsg app0 { status := none, pipelineId := none, components := none,
                        pipelineData := none }).pipelineData = app0.pipelineData := by
  have h := partial_update_keeps_absent_fields m0 ⟨none, none, none⟩ app0 ⟨none, none, none, none⟩
  exact ⟨h.1 rfl, h.2.1 rfl, h.2.2.1 rfl, h.2.2.2.2.1 rfl, h.2.2.2.2.2.1 rfl,
         h.2.2.2.2.2.2.1 rfl, h.2.2.2.2.2.2.2 rfl⟩

/-- C10: the merge guards test JS truthiness of the field value, not key
    presence: a present but falsy field (for example an empty-string
    status, a null components value or a null data-map value) leaves the
    corresponding state field unchanged in both handlers, exactly as if
    the key were absent. -/
theorem falsy_present_fields_ignored (st : MState) (m : InMsg)
    (a : AppState) (am : AppMsg) :
    (truthyStr m.status = false → (applyMsg st m).status = st.status) ∧
    (truthyObj m.components = false → (applyMsg st m).components = st.components) ∧
    (truthyObj m.pipeline_data = false → (applyMsg st m).pipelineData = st.pipelineData) ∧
    (truthyStr am.status = false → (applyAppMsg a am).status = a.status) ∧
    (truthyStr am.pipelineId = false → (applyAppMsg a am).pipelineId = a.pipelineId) ∧
    (truthyObj am.components = false → (applyAppMsg a am).components = a.components) ∧
    (truthyObj am.pipelineData = false → (applyAppMsg a am).pipelineData = a.pipelineData) :=
  ⟨applyMsg_status_frame st m, applyMsg_components_frame st m, applyMsg_pdata_frame st m,
   applyAppMsg_status_frame a am, applyAppMsg_pipelineId_frame a am,
   applyAppMsg_components_frame a am, applyAppMsg_pdata_frame a am⟩

/-- A frame in which every recognized key is present but carries a falsy
    value: empty-string status, null components, null pipeline_data. -/
def falsyFrame : InMsg :=
  { status := some (some ""), components := some none, pipeline_data := some none }

/-- The analogous all-falsy frame for App's handler. -/
def falsyAppFrame : AppMsg :=
  { status := some (some ""), pipelineId := some none, components := some none,
    pipelineData := some none }

/-- Witness for C10 at the concrete all-falsy frames. -/
theorem falsy_present_fields_ignored_witness :
    (applyMsg m0 falsyFrame).status = m0.status ∧
    (applyMsg m0 falsyFrame).components = m0.components ∧
    (applyMsg m0 falsyFrame).pipelineData = m0.pipelineData ∧
    (applyAppMsg app0 falsyAppFrame).status = app0.status ∧
    (applyAppMsg app0 falsyAppFrame).pipelineId = app0.pipelineId ∧
    (applyAppMsg app0 falsyAppFrame).components = app0.components ∧
    (applyAppMsg app0 falsyAppFrame).pipelineData = app0.pipelineData := by
  have h := falsy_present_fields_ignored m0 falsyFrame app0 falsyAppFrame
  exact ⟨h.1 (by decide), h.2.1 (by decide), h.2.2.1 (by decide), h.2.2.2.1 (by decide),
         h.2.2.2.2.1 (by decide), h.2.2.2.2.2.1 (by decide), h.2.2.2.2.2.2 (by decide)⟩

/-- C5 counterexample: App's handleMessage parses outside any try block,
    so on a malformed frame the handler exits with the parse exception -
    the decode failure does propagate past the message-handling boundary
    of that handler. -/
theorem app_decode_failure_propagates :
    handleMessageApp app0 (Except.error ()) = Except.error () := rfl

/-- C5 amended: a malformed inbound frame mutates no state field and
    neither tears down nor retries the connection in either handler.
    PipelineMonitor's onmessage catches the parse failure and only logs
    it (the component state is bitwise unchanged, timers and socket
    reference included); App's handleMessage exits with the parse
    exception, which the event-loop dispatch swallows, leaving App's
    state unchanged as well. -/
theorem malformed_frame_no_mutation (st : MState) (g : Nat) (a : AppState) :
    step st (Ev.sockMsg g (Except.error ())) = st ∧
    appDispatch a (Except.error ()) = a := by
  constructor
  · simp [step, onMessage]
  · rfl

/-- The handshake-acknowledgment frame with status connected and no other
    recognized field, as parsed. -/
def connFrame : InMsg :=
  { status := some (some "connected"), components := none, pipeline_data := none }

/-- The same handshake frame shaped for App's handler. -/
def connAppFrame : AppMsg :=
  { status := some (some "connected"), pipelineId := none, components := none,
    pipelineData := none }

/-- C6 counterexample: PipelineMonitor's onmessage has no handshake
    special case, so delivering a frame with status connected to the live
    socket of a running pipeline overwrites the snapshot status. -/
theorem connected_frame_mutates_status :
    mRun.status = "running" ∧
    (step mRun (Ev.sockMsg 0 (Except.ok connFrame))).status = "connected" := by decide

/-- C6 amended: only App's handleMessage treats a frame with status
    connected as a handshake acknowledgment and leaves every state field
    unchanged; PipelineMonitor's onmessage has no such special case and
    stores the string connected into the snapshot status, leaving the
    other fields unchanged. -/
theorem connected_frame_ack_vs_update (a : AppState) (st : MState) :
    handleMessageApp a (Except.ok connAppFrame) = Except.ok a ∧
    applyMsg st connFrame = { st with status := "connected" } := by
  constructor
  · rfl
  · have hne : ("connected" : String) ≠ "" := by decide
    simp [applyMsg, connFrame, hne]

/-- Component A with order 1. -/
def cA : PipelineComponent := { name := "A", execution_time := none, order := some 1 }

/-- Component B with order 2. -/
def cB : PipelineComponent := { name := "B", execution_time := none, order := some 2 }

/-- A monitor state whose stored component list is out of order: B before A. -/
def mSort : MState := { m0 with components := [cB, cA] }

/-- C8: the spec-test state demonstrating the in-place sort.  Rendering
    the timeline with stored components [B, A] yields the ordered view
    [A, B], but because Array.prototype.sort sorts the array in place the
    stored component list is itself reordered to [A, B] - a mutation of
    React state (and of the aliased components prop array) outside
    applyEvent and reset, not the pure read the spec requires.  The other
    snapshot fields stay unchanged. -/
theorem timeline_sort_mutates_stored_list :
    (timelineSortRead mSort).1 = [cA, cB] ∧
    (timelineSortRead mSort).2.components = [cA, cB] ∧
    mSort.components = [cB, cA] ∧
    ¬ ([cA, cB] : List PipelineComponent) = [cB, cA] ∧
    (timelineSortRead mSort).2.status = mSort.status ∧
    (timelineSortRead mSort).2.pipelineData = mSort.pipelineData ∧
    (timelineSortRead mSort).2.wsConnected = mSort.wsConnected := by decide

/-- C9 counterexample: when the field part of a composite key itself
    contains a dot, key.split('.')[1] is not the key with the component
    prefix stripped: on the map with single key parser.rows.count the
    code returns the pair (rows, 10) while the prefix-stripped pair would
    be (rows.count, 10). -/
theorem component_fields_not_strip_cex :
    getComponentData [("parser.rows.count", "10")] ("parser") = [("rows", "10")] ∧
    componentFieldsSpec [("parser.rows.count", "10")] ("parser") = [("rows.count", "10")] ∧
    ¬ ([("rows", "10")] : List (String × String)) = [("rows.count", "10")] := by decide

/-- C9 amended: componentFields(name) keeps exactly the entries of the
    data map whose composite key begins with name followed by a dot - so
    the returned values are exactly the values of those entries, in order -
    and returns as the key the second dot-separated segment of the
    composite key (which equals the prefix-stripped key only when neither
    the component name nor the field part contains a dot); in particular
    componentFields with name parser over the two-entry map with keys
    parser.rows and joiner.rows returns exactly the pair (rows, 10). -/
theorem component_fields_amended (data : List (String × String)) (nm : String) :
    (getComponentData data nm).map Prod.snd
      = (data.filter (fun kv => strBeginsWith kv.1 (nm ++ "."))).map Prod.snd ∧
    getComponentData [("parser.rows", "10"), ("joiner.rows", "5")] ("parser")
      = [("rows", "10")] := by
  constructor
  · simp [getComponentData, List.map_map, Function.comp]
  · decide

/-- The state right after shutdown is requested: the effect cleanup marks
    the component unmounted and runs cleanupWebSocket. -/
def postShutdown (st : MState) : MState := step st Ev.effectCleanup

/-- The snapshot of t agrees with the snapshot of s: status, component
    list, data map and connected flag. -/
def snapEq (s t : MState) : Prop :=
  t.status = s.status ∧ t.components = s.components ∧
  t.pipelineData = s.pipelineData ∧ t.wsConnected = s.wsConnected

/-- After one more event the snapshot is untouched, no socket was created
    (the generation counter is unchanged), no timer is pending and the
    component is still unmounted. -/
def inertAfter (s t : MState) : Prop :=
  snapEq s t ∧ t.nextGen = s.nextGen ∧ t.reconnectTimeout = none ∧
  t.connectionTimeout = none ∧ t.mounted = false

/-- C1: shutdown (the pipeline_id effect cleanup: unmount mark plus
    cleanupWebSocket) leaves the component unmounted with both timer slots
    empty; and from any such quiesced state, every late or stale callback -
    socket open, message, error or close on any socket generation, or
    either timer firing - leaves every snapshot field (status, components,
    data map, connected flag) unchanged, creates no socket (the generation
    counter is unchanged) and arms no timer, and the state is quiesced
    again, so the guarantee persists over any sequence of late callbacks.
    Socket events may still advance the browser-side readyState
    bookkeeping, but the handler bodies all return early on the cleared
    mount flag, both timers were cancelled by the cleanup, and a reconnect
    firing would be stopped by the mount guard inside connectWebSocket. -/
theorem shutdown_no_late_mutation (s st : MState) (g : Nat) (r : Except Unit InMsg)
    (h1 : s.mounted = false) (h2 : s.reconnectTimeout = none)
    (h3 : s.connectionTimeout = none) :
    ((postShutdown st).mounted = false ∧ (postShutdown st).reconnectTimeout = none ∧
     (postShutdown st).connectionTimeout = none) ∧
    inertAfter s (step s (Ev.sockOpen g)) ∧
    inertAfter s (step s (Ev.sockMsg g r)) ∧
    inertAfter s (step s (Ev.sockErr g)) ∧
    inertAfter s (step s (Ev.sockClose g)) ∧
    inertAfter s (step s Ev.connTimeoutFire) ∧
    inertAfter s (step s Ev.reconnectFire) := by
  obtain ⟨-, -, -, -, c5, -, -, -, c9, c10, -⟩ :=
    cleanup_spec ({ st with mounted := false } : MState)
  refine ⟨⟨?_, ?_, ?_⟩, ?_, ?_, ?_, ?_, ?_, ?_⟩ <;>
    simp [postShutdown, step, onOpen, onMessage, onError, onClose, connTimeoutBody,
          setRs, isAttached, inertAfter, snapEq, h1, h2, h3, c5, c9, c10]

/-- C1 witness: the quiesced-state theorem applied to the concrete
    post-shutdown state mShut (with a stale handshake frame as the late
    message) and to the live state m1 for the shutdown conjunct. -/
theorem shutdown_no_late_mutation_witness :
    ((postShutdown m1).mounted = false ∧ (postShutdown m1).reconnectTimeout = none ∧
     (postShutdown m1).connectionTimeout = none) ∧
    inertAfter mShut (step mShut (Ev.sockOpen 0)) ∧
    inertAfter mShut (step mShut (Ev.sockMsg 0 (Except.ok connFrame))) ∧
    inertAfter mShut (step mShut (Ev.sockErr 0)) ∧
    inertAfter mShut (step mShut (Ev.sockClose 0)) ∧
    inertAfter mShut (step mShut Ev.connTimeoutFire) ∧
    inertAfter mShut (step mShut Ev.reconnectFire) :=
  shutdown_no_late_mutation mShut m1 0 (Except.ok connFrame)
    (by decide) (by decide) (by decide)

/-- C2 counterexample: a freshly mounted monitor arms the 5000 ms watchdog
    on socket generation 0; when the watchdog fires with the socket still
    CONNECTING, status becomes error but NO reconnect is scheduled (both
    timer slots are empty and the socket reference is gone), because
    cleanupWebSocket detaches onclose before closing the socket, so the
    claimed exactly-one reconnect is in fact zero. -/
theorem watchdog_zero_reconnect_cex :
    m1.connectionTimeout = some (0, 5000) ∧
    rsOf m1 0 = RState.connecting ∧
    m2.status = "error" ∧
    m2.reconnectTimeout = none ∧
    m2.connectionTimeout = none ∧
    m2.wsRef = none ∧
    isAttached m2 0 = false := by decide

/-- C2 amended: the watchdog armed by a connect attempt (at 5000 ms) that
    fires while the socket has not reached OPEN surfaces status error and
    tears the connection down with handlers detached; no reconnect is
    scheduled - afterwards both timer slots are empty and the socket
    reference is cleared, so the retry loop ends until the next
    subscription-identifier change. -/
theorem watchdog_error_and_no_reconnect (st st2 : MState) (g d : Nat)
    (h1 : st.connectionTimeout = some (g, d))
    (h2 : rsOf st g ≠ RState.opened)
    (h3 : st.mounted = true)
    (h4 : st2.mounted = true) :
    (step st Ev.connTimeoutFire).status = "error" ∧
    (step st Ev.connTimeoutFire).reconnectTimeout = none ∧
    (step st Ev.connTimeoutFire).connectionTimeout = none ∧
    (step st Ev.connTimeoutFire).wsRef = none ∧
    (connectWebSocket st2).connectionTimeout = some (st2.nextGen, 5000) := by
  obtain ⟨-, -, -, -, c5, -, -, -, c9, c10, c11⟩ :=
    cleanup_spec ({ st with connectionTimeout := none } : MState)
  obtain ⟨-, -, -, -, k5, k6, -, -, -, -, -⟩ := cleanup_spec st2
  have hm : (cleanupWebSocket { st with connectionTimeout := none }).mounted = true := by
    rw [c5]; exact h3
  have hm2 : (cleanupWebSocket st2).mounted = true := by rw [k5]; exact h4
  have hrs : rsOf ({ st with connectionTimeout := none } : MState) g ≠ RState.opened := by
    simpa [rsOf] using h2
  refine ⟨?_, ?_, ?_, ?_, ?_⟩ <;>
    simp [step, connTimeoutBody, connectWebSocket, h1, hrs, hm, hm2, c9, c10, c11, k6]

/-- C2 witness: the amended watchdog theorem applied to the concrete
    mounted state m1 (watchdog armed on the never-opened socket 0) and to
    the pre-mount state m0 for the arming fact. -/
theorem watchdog_error_and_no_reconnect_witness :
    (step m1 Ev.connTimeoutFire).status = "error" ∧
    (step m1 Ev.connTimeoutFire).reconnectTimeout = none ∧
    (step m1 Ev.connTimeoutFire).connectionTimeout = none ∧
    (step m1 Ev.connTimeoutFire).wsRef = none ∧
    (connectWebSocket m0).connectionTimeout = some (m0.nextGen, 5000) :=
  watchdog_error_and_no_reconnect m1 m0 0 5000 (by decide) (by decide) (by decide) (by decide)

/-- C7: a close event delivered through the attached handler of the
    current socket while the component is mounted (shutdown not
    requested) arms the single reconnect timer slot at exactly 3000 ms,
    clears the connected flag and leaves the status field untouched (in
    particular it is not forced to error); after shutdown the handler's
    mount guard makes the close event a no-op for the component state, so
    no reconnect is scheduled. -/
theorem close_schedules_single_reconnect (st : MState) (g : Nat) :
    (st.mounted = true → isAttached st g = true → st.wsRef = some g →
      ((step st (Ev.sockClose g)).reconnectTimeout = some 3000 ∧
       (step st (Ev.sockClose g)).status = st.status ∧
       (step st (Ev.sockClose g)).wsConnected = false)) ∧
    (st.mounted = false →
      ((step st (Ev.sockClose g)).reconnectTimeout = st.reconnectTimeout ∧
       (step st (Ev.sockClose g)).status = st.status ∧
       (step st (Ev.sockClose g)).wsConnected = st.wsConnected)) := by
  constructor
  · intro hm ha hw
    simp [step, onClose, setRs, isAttached, hm, hw] at ha ⊢
    simp [ha]
  · intro hm
    simp [step, onClose, setRs, isAttached, hm]

/-- C7 witness: the close theorem applied to the live mounted state m1
    (socket 0 current and attached) and to the post-shutdown state mShut. -/
theorem close_schedules_single_reconnect_witness :
    ((step m1 (Ev.sockClose 0)).reconnectTimeout = some 3000 ∧
     (step m1 (Ev.sockClose 0)).status = m1.status ∧
     (step m1 (Ev.sockClose 0)).wsConnected = false) ∧
    ((step mShut (Ev.sockClose 0)).reconnectTimeout = mShut.reconnectTimeout ∧
     (step mShut (Ev.sockClose 0)).status = mShut.status ∧
     (step mShut (Ev.sockClose 0)).wsConnected = mShut.wsConnected) :=
  ⟨(close_schedules_single_reconnect m1 0).1 (by decide) (by decide) (by decide),
   (close_schedules_single_reconnect mShut 0).2 (by decide)⟩

